import Mathlib

/-!
Verification of the "Art of Bookmarks" client (Next.js + Supabase).

Shallow embedding of the client-side logic in
`src/app/bookmarks/page.tsx`, `src/components/BookmarkForm.tsx`,
`src/components/BookmarkList.tsx` and the OAuth callback route handler.

Strings are modelled by Lean `String`; timestamps by `Nat`; the backing
store's response to a request by an explicit `Except` argument; nullable
columns by `Option`.
-/

namespace ArtOfBookmarks

/-- The `Bookmark` row shape (interface `Bookmark` in
`src/app/bookmarks/page.tsx`).  `description` and `is_favorite` are
nullable columns. -/
structure Bookmark where
  id : String
  url : String
  title : String
  description : Option String
  is_favorite : Option Bool
  created_at : Nat
  updated_at : Nat
  user_id : String
deriving DecidableEq, Repr

/-- JavaScript `String.prototype.toLowerCase`, modelled per character. -/
def strToLower (s : String) : String :=
  String.mk (s.data.map Char.toLower)

/-- Predicate `hasLead sub s`: holds when `sub` is a leading run of `s`
(characterwise). -/
def hasLead : List Char → List Char → Bool
  | [], _ => true
  | _ :: _, [] => false
  | a :: as, b :: bs => a == b && hasLead as bs

/-- Predicate `hasSub s sub`: `s` contains `sub` as a contiguous run; the model of
JavaScript `haystack.includes(needle)`. -/
def hasSub : List Char → List Char → Bool
  | [], sub => hasLead sub []
  | c :: t, sub => hasLead sub (c :: t) || hasSub t sub

/-- JavaScript `s.includes(sub)` on the `String` model. -/
def strIncludes (s sub : String) : Bool :=
  hasSub s.toList sub.toList

/-- JavaScript `x || null` applied to a nullable string: `null` and the
empty string map to `null`, every other string is kept. -/
def jsOrNull : Option String → Option String
  | none => none
  | some s => if s = "" then none else some s

/-- The realtime payloads handled by `setupRealtimeListener`
(`payload.eventType` with `payload.new` / `payload.old`). -/
inductive RealtimeEvent where
  | ins (newRow : Bookmark)
  | upd (newRow : Bookmark)
  | del (oldRow : Bookmark)
deriving DecidableEq, Repr

/-- The realtime callback of `setupRealtimeListener`
(`src/app/bookmarks/page.tsx`): each event first checks the row's
`user_id` against the session's user id and returns (no-op) on mismatch;
otherwise INSERT prepends the new row, DELETE filters out the matching
id, UPDATE maps the matching id to the new row. -/
def applyRealtimeEvent (uid : String) (ev : RealtimeEvent)
    (prev : List Bookmark) : List Bookmark :=
  match ev with
  | .ins newRow =>
      if newRow.user_id ≠ uid then prev
      else newRow :: prev
  | .del oldRow =>
      if oldRow.user_id ≠ uid then prev
      else prev.filter (fun b => b.id ≠ oldRow.id)
  | .upd newRow =>
      if newRow.user_id ≠ uid then prev
      else prev.map (fun b => if b.id = newRow.id then newRow else b)

/-- Function `loadBookmarks` (`src/app/bookmarks/page.tsx`): the backing store
evaluates `select * from bookmarks where user_id = uid order by
created_at desc` over its rows `db`; the result replaces the in-memory
list. -/
def loadBookmarks (db : List Bookmark) (uid : String) : List Bookmark :=
  List.insertionSort (fun a b => b.created_at ≤ a.created_at)
    (db.filter (fun b => b.user_id = uid))

/-- The search/favorites predicate of the filtering effect in
`BookmarksPage`: `matchesFavorite && matchesSearch`, where
`matchesFavorite` is `!showFavoritesOnly || Boolean(is_favorite)` and
`matchesSearch` is a lowercased substring test over title, url and
description (a `null` description contributes the empty string). -/
def bookmarkMatches (searchQuery : String) (showFavoritesOnly : Bool)
    (b : Bookmark) : Bool :=
  let matchesFavorite := !showFavoritesOnly || b.is_favorite.getD false
  let lowerSearch := strToLower searchQuery
  let descText := match b.description with
    | some d => strToLower d
    | none => ""
  let matchesSearch := strIncludes (strToLower b.title) lowerSearch ||
    strIncludes (strToLower b.url) lowerSearch ||
    strIncludes descText lowerSearch
  matchesFavorite && matchesSearch

/-- The derived `filteredBookmarks` list of `BookmarksPage`:
`bookmarks.filter(...)` recomputed from the store, the search query and
the favorites toggle. -/
def filterBookmarks (searchQuery : String) (showFavoritesOnly : Bool)
    (bookmarks : List Bookmark) : List Bookmark :=
  bookmarks.filter (bookmarkMatches searchQuery showFavoritesOnly)

/-- The page state touched by the mutation handlers: the `bookmarks`
list and the dismissible `error` banner of `BookmarksPage`. -/
structure PageState where
  bookmarks : List Bookmark
  error : Option String
deriving DecidableEq, Repr

/-- The row inserted by `handleAddBookmark`:
`{ url, title, description: description || null, user_id: session.user.id }`. -/
structure InsertPayload where
  url : String
  title : String
  description : Option String
  user_id : String
deriving DecidableEq, Repr

/-- Handler `handleAddBookmark` (`src/app/bookmarks/page.tsx`): with no session
it returns before issuing any call; otherwise it inserts the payload
built from the raw arguments, and a failing insert sets the
"Failed to add bookmark" banner.  Returns the new page state and the
payload sent to the backing store (`none` when no call was made). -/
def handleAddBookmark (session : Option String)
    (url title description : String) (result : Except String Unit)
    (s : PageState) : PageState × Option InsertPayload :=
  match session with
  | none => (s, none)
  | some uid =>
      let payload : InsertPayload :=
        { url := url, title := title,
          description := jsOrNull (some description), user_id := uid }
      match result with
      | .ok _ => (s, some payload)
      | .error _ =>
          ({ s with error := some "Failed to add bookmark" }, some payload)

/-- The delete request of `handleDeleteBookmark`:
`.delete().eq("id", id).eq("user_id", user.id)`. -/
structure DeletePayload where
  eqId : String
  eqUser : String
deriving DecidableEq, Repr

/-- Handler `handleDeleteBookmark` (`src/app/bookmarks/page.tsx`): with no user
it returns before issuing any call; otherwise it issues the delete
constrained to `id` and `user_id`, and a failing delete sets the
"Failed to delete bookmark" banner.  All failures are caught inside the
handler, so it always resolves normally (it never rejects to its
caller), and it never touches the `bookmarks` list itself. -/
def handleDeleteBookmark (user : Option String) (id : String)
    (result : Except String Unit) (s : PageState) :
    PageState × Option DeletePayload :=
  match user with
  | none => (s, none)
  | some uid =>
      let payload : DeletePayload := { eqId := id, eqUser := uid }
      match result with
      | .ok _ => (s, some payload)
      | .error _ =>
          ({ s with error := some "Failed to delete bookmark" }, some payload)

/-- The update written by `handleUpdateBookmark`: trimmed `title` and
`url`, `description?.trim() || null`, a fresh `updated_at`, constrained
by `.eq("id", id).eq("user_id", user.id)`. -/
structure UpdatePayload where
  title : String
  url : String
  description : Option String
  updated_at : Nat
  eqId : String
  eqUser : String
deriving DecidableEq, Repr

/-- Handler `handleUpdateBookmark` (`src/app/bookmarks/page.tsx`): with no user
it returns before issuing any call; otherwise it writes the trimmed
payload, and a failing update sets the "Failed to update bookmark"
banner. -/
def handleUpdateBookmark (user : Option String) (now : Nat) (id : String)
    (title url : String) (description : Option String)
    (result : Except String Unit) (s : PageState) :
    PageState × Option UpdatePayload :=
  match user with
  | none => (s, none)
  | some uid =>
      let payload : UpdatePayload :=
        { title := title.trim, url := url.trim,
          description := jsOrNull (description.map String.trim),
          updated_at := now, eqId := id, eqUser := uid }
      match result with
      | .ok _ => (s, some payload)
      | .error _ =>
          ({ s with error := some "Failed to update bookmark" }, some payload)

/-- The update written by `handleToggleFavorite`: the flipped flag and a
fresh `updated_at`, constrained by `id` and `user_id`. -/
structure TogglePayload where
  is_favorite : Bool
  updated_at : Nat
  eqId : String
  eqUser : String
deriving DecidableEq, Repr

/-- Handler `handleToggleFavorite` (`src/app/bookmarks/page.tsx`): with no user
it returns before issuing any call; otherwise it writes
`is_favorite := !isFavorite` with a fresh timestamp, and a failing write
sets the favorite-specific banner. -/
def handleToggleFavorite (user : Option String) (now : Nat) (id : String)
    (isFavorite : Bool) (result : Except String Unit) (s : PageState) :
    PageState × Option TogglePayload :=
  match user with
  | none => (s, none)
  | some uid =>
      let payload : TogglePayload :=
        { is_favorite := !isFavorite, updated_at := now,
          eqId := id, eqUser := uid }
      match result with
      | .ok _ => (s, some payload)
      | .error _ =>
          ({ s with error := some "Failed to update favorite. Make sure your bookmarks table has an is_favorite column." },
           some payload)

/-- Outcome of the form's `handleSubmit` (`src/components/BookmarkForm.tsx`):
either an inline validation error (no call to `onAddBookmark`, hence no
insert request and no store change), or the invocation of
`onAddBookmark(url, title, description)` with the raw field values. -/
inductive SubmitOutcome where
  | validationError (msg : String)
  | insertIssued (url title description : String)
deriving DecidableEq, Repr

/-- Handler `handleSubmit` of `BookmarkForm`: rejects an all-whitespace `url`,
then a `url` the URL parser refuses (`validateUrl`, modelled by the
oracle `validURL` since `new URL` is a platform call), then an
all-whitespace `title`; only when all three checks pass does it call
`onAddBookmark` with the raw (untrimmed) values. -/
def handleSubmit (validURL : String → Bool)
    (url title description : String) : SubmitOutcome :=
  if url.trim = "" then
    .validationError "URL is required"
  else if !validURL url then
    .validationError "Please enter a valid URL (e.g., https://example.com)"
  else if title.trim = "" then
    .validationError "Title is required"
  else
    .insertIssued url title description

/-- How `onDeleteBookmark` finishes from the point of view of the list
component: the promise either resolves with the page state produced by
`handleDeleteBookmark`, or rejects. -/
inductive CalleeOutcome where
  | resolved (s : PageState)
  | rejected
deriving DecidableEq, Repr

/-- What `handleDelete` in `src/components/BookmarkList.tsx` leaves
behind: the page state, whether the fade-out animation was started, and
whether the `catch` branch (the restore animation) ran. -/
structure DeleteFlowResult where
  page : PageState
  fadeOutPlayed : Bool
  restorePlayed : Bool
deriving DecidableEq, Repr

/-- Handler `handleDelete` of `BookmarkList`: starts the GSAP fade-out
animation, marks the row as deleting, then awaits `onDeleteBookmark`;
the `catch` branch plays the restore animation only if the callee
rejects. -/
def listHandleDelete (outcome : CalleeOutcome) (s : PageState) :
    DeleteFlowResult :=
  match outcome with
  | .resolved s2 => { page := s2, fadeOutPlayed := true, restorePlayed := false }
  | .rejected => { page := s, fadeOutPlayed := true, restorePlayed := true }

/-- The complete client-side delete flow: `handleDelete` invokes
`onDeleteBookmark = handleDeleteBookmark`, which catches every backend
failure itself and therefore always resolves. -/
def deleteFlow (user : Option String) (id : String)
    (result : Except String Unit) (s : PageState) : DeleteFlowResult :=
  listHandleDelete
    (CalleeOutcome.resolved (handleDeleteBookmark user id result s).1) s

/-- The redirect target after a successful code exchange:
`searchParams.get("next") || "/bookmarks"` (absent or empty `next`
falls back to `/bookmarks`). -/
def nextTarget : Option String → String
  | none => "/bookmarks"
  | some n => if n = "" then "/bookmarks" else n

/-- The OAuth callback route handler `GET` (`src/unnamed/part_000`):
`code` falsy (absent or empty) redirects to `/auth?error=no_code`; a
throwing `exchangeCodeForSession` redirects to `/auth?error=auth_failed`;
a successful exchange redirects to the `next` target. -/
def callbackGET (code : Option String) (nextP : Option String)
    (exchange : String → Except String Unit) : String :=
  match code with
  | none => "/auth?error=no_code"
  | some c =>
      if c = "" then "/auth?error=no_code"
      else
        match exchange c with
        | .ok _ => nextTarget nextP
        | .error _ => "/auth?error=auth_failed"

/-- Demo bookmark owned by user `"me"`. -/
def bMe : Bookmark :=
  { id := "b1", url := "https://a.example", title := "A",
    description := none, is_favorite := none,
    created_at := 2, updated_at := 2, user_id := "me" }

/-- Demo bookmark owned by user `"other"`. -/
def bOther : Bookmark :=
  { id := "b2", url := "https://b.example", title := "B",
    description := some "x", is_favorite := some true,
    created_at := 1, updated_at := 1, user_id := "other" }

/-- Edited version of `bMe` (same id, same owner, new title). -/
def bMe2 : Bookmark :=
  { bMe with title := "A2", updated_at := 5 }

/-- Replacing the entry with a given id is the identity when no entry
has that id. -/
theorem map_replace_eq_self (r : Bookmark) (l : List Bookmark)
    (h : ∀ b ∈ l, b.id ≠ r.id) :
    l.map (fun b => if b.id = r.id then r else b) = l := by
  induction l with
  | nil => rfl
  | cons a t ih =>
      simp only [List.map_cons]
      rw [if_neg (h a (List.mem_cons_self a t)),
        ih (fun b hb => h b (List.mem_cons_of_mem a hb))]

/-- The owner field the realtime guard inspects before applying an
event: `payload.new.user_id` for INSERT and UPDATE,
`payload.old.user_id` for DELETE. -/
def eventRowOwner : RealtimeEvent → String
  | .ins newRow => newRow.user_id
  | .upd newRow => newRow.user_id
  | .del oldRow => oldRow.user_id

/-- C1.  Store ownership invariant: the initial load returns only rows
with the current user's id; every realtime event preserves the
all-rows-owned-by-`uid` invariant of the store; and any inbound event
of any kind — insert, update, or delete — whose row carries a
different `user_id` leaves the store unchanged (for an insert this is
exactly the fabricated-insert case of the claim). -/
theorem store_ownership (uid : String) (db : List Bookmark)
    (ev : RealtimeEvent) (l : List Bookmark) :
    (∀ b ∈ loadBookmarks db uid, b.user_id = uid) ∧
    ((∀ b ∈ l, b.user_id = uid) →
      ∀ b ∈ applyRealtimeEvent uid ev l, b.user_id = uid) ∧
    (eventRowOwner ev ≠ uid → applyRealtimeEvent uid ev l = l) := by
  refine ⟨?_, ?_, ?_⟩
  · intro b hb
    rw [loadBookmarks, List.mem_insertionSort, List.mem_filter] at hb
    exact of_decide_eq_true hb.2
  · intro hall b hb
    cases ev with
    | ins nr =>
        simp only [applyRealtimeEvent] at hb
        split at hb
        · exact hall b hb
        · next hn =>
            rcases List.mem_cons.mp hb with h | h
            · rw [h]; exact not_not.mp hn
            · exact hall b h
    | del orow =>
        simp only [applyRealtimeEvent] at hb
        split at hb
        · exact hall b hb
        · exact hall b (List.mem_filter.mp hb).1
    | upd nr =>
        simp only [applyRealtimeEvent] at hb
        split at hb
        · exact hall b hb
        · next hn =>
            rcases List.mem_map.mp hb with ⟨a, ha, hfa⟩
            by_cases hid : a.id = nr.id
            · rw [if_pos hid] at hfa
              rw [← hfa]; exact not_not.mp hn
            · rw [if_neg hid] at hfa
              rw [← hfa]; exact hall a ha
  · intro hr
    cases ev with
    | ins nr =>
        simp only [eventRowOwner] at hr
        simp only [applyRealtimeEvent, if_pos hr]
    | upd nr =>
        simp only [eventRowOwner] at hr
        simp only [applyRealtimeEvent, if_pos hr]
    | del orow =>
        simp only [eventRowOwner] at hr
        simp only [applyRealtimeEvent, if_pos hr]

/-- Witness for C1 at concrete inputs: loading a mixed database as
`"me"` yields only `"me"`-owned rows, an owned insert event keeps the
invariant, and a fabricated insert, update, or delete event for
`"other"` is a no-op on the store. -/
theorem store_ownership_witness :
    (∀ b ∈ loadBookmarks [bMe, bOther] "me", b.user_id = "me") ∧
    (∀ b ∈ applyRealtimeEvent "me" (.ins bMe) [bMe], b.user_id = "me") ∧
    applyRealtimeEvent "me" (.ins bOther) [bMe] = [bMe] ∧
    applyRealtimeEvent "me" (.upd bOther) [bMe] = [bMe] ∧
    applyRealtimeEvent "me" (.del bOther) [bMe] = [bMe] := by
  obtain ⟨h1, h2, -⟩ := store_ownership "me" [bMe, bOther] (.ins bMe) [bMe]
  refine ⟨h1, h2 (by decide), ?_, ?_, ?_⟩
  · exact (store_ownership "me" [] (.ins bOther) [bMe]).2.2 (by decide)
  · exact (store_ownership "me" [] (.upd bOther) [bMe]).2.2 (by decide)
  · exact (store_ownership "me" [] (.del bOther) [bMe]).2.2 (by decide)

/-- C3.  The INSERT branch of the realtime callback: a row owned by the
current user is prepended to the previous list, which is otherwise kept
unchanged; a row with a different owner leaves the list unchanged. -/
theorem applyInsert_spec (uid : String) (r : Bookmark) (l : List Bookmark) :
    (r.user_id = uid → applyRealtimeEvent uid (.ins r) l = r :: l) ∧
    (r.user_id ≠ uid → applyRealtimeEvent uid (.ins r) l = l) := by
  constructor
  · intro h
    simp [applyRealtimeEvent, h]
  · intro h
    simp [applyRealtimeEvent, h]

/-- Witness for C3: an owned insert is prepended at the head; a foreign
insert is dropped. -/
theorem applyInsert_spec_witness :
    applyRealtimeEvent "me" (.ins bMe) [bMe2] = bMe :: [bMe2] ∧
    applyRealtimeEvent "me" (.ins bOther) [bMe2] = [bMe2] :=
  ⟨(applyInsert_spec "me" bMe [bMe2]).1 (by decide),
   (applyInsert_spec "me" bOther [bMe2]).2 (by decide)⟩

/-- C4.  The UPDATE branch of the realtime callback, once the ownership
guard passes: the list keeps its length; entry `i` of the result is
entry `i` of the input, replaced by the incoming row exactly when its id
matches (so relative order is preserved and every other entry is left
unchanged); and the whole list is unchanged when no entry has the
matching id. -/
theorem applyUpdate_spec (uid : String) (r : Bookmark) (l : List Bookmark)
    (hown : r.user_id = uid) :
    (applyRealtimeEvent uid (.upd r) l).length = l.length ∧
    (∀ i : Nat, (applyRealtimeEvent uid (.upd r) l)[i]? =
      (l[i]?).map (fun b => if b.id = r.id then r else b)) ∧
    ((∀ b ∈ l, b.id ≠ r.id) → applyRealtimeEvent uid (.upd r) l = l) := by
  have hmap : applyRealtimeEvent uid (.upd r) l =
      l.map (fun b => if b.id = r.id then r else b) := by
    simp [applyRealtimeEvent, hown]
  refine ⟨?_, ?_, ?_⟩
  · rw [hmap, List.length_map]
  · intro i
    rw [hmap, List.getElem?_map]
  · intro h
    rw [hmap]
    exact map_replace_eq_self r l h

/-- Witness for C4 at concrete inputs (updating `bMe` to `bMe2` in a
two-element list). -/
theorem applyUpdate_spec_witness :
    (applyRealtimeEvent "me" (.upd bMe2) [bMe, bOther]).length =
      [bMe, bOther].length ∧
    (∀ i : Nat, (applyRealtimeEvent "me" (.upd bMe2) [bMe, bOther])[i]? =
      ([bMe, bOther][i]?).map (fun b => if b.id = bMe2.id then bMe2 else b)) ∧
    ((∀ b ∈ [bMe, bOther], b.id ≠ bMe2.id) →
      applyRealtimeEvent "me" (.upd bMe2) [bMe, bOther] = [bMe, bOther]) :=
  applyUpdate_spec "me" bMe2 [bMe, bOther] (by decide)

/-- C5.  The derived display list.  First conjunct: the computation is
pure — two evaluations on identical store contents, query and flag are
the same list (the store argument itself is never written, the filter
being a function of its inputs only).  Second conjunct: a bookmark is
displayed exactly when it is in the store and matches the
case-insensitive substring search over title, URL, or description (a
`null` description searched as the empty string), and, when the
favorites-only flag is set, carries a true favorite flag. -/
theorem filter_spec (q : String) (fav : Bool) (l : List Bookmark) :
    filterBookmarks q fav l = filterBookmarks q fav l ∧
    (∀ b : Bookmark, b ∈ filterBookmarks q fav l ↔
      b ∈ l ∧
      (strIncludes (strToLower b.title) (strToLower q) = true ∨
        strIncludes (strToLower b.url) (strToLower q) = true ∨
        strIncludes ((b.description.map strToLower).getD "")
          (strToLower q) = true) ∧
      (fav = true → b.is_favorite = some true)) := by
  refine ⟨rfl, ?_⟩
  intro b
  have hmatch : bookmarkMatches q fav b = true ↔
      ((strIncludes (strToLower b.title) (strToLower q) = true ∨
        strIncludes (strToLower b.url) (strToLower q) = true ∨
        strIncludes ((b.description.map strToLower).getD "")
          (strToLower q) = true) ∧
      (fav = true → b.is_favorite = some true)) := by
    cases fav <;> cases hdes : b.description <;>
      cases hisf : b.is_favorite <;>
        simp [bookmarkMatches, hdes, hisf, or_assoc, and_comm]
  rw [filterBookmarks, List.mem_filter, hmatch]

/-- Witness for C5: a favorite bookmark matching the query `"b"` is
displayed under the favorites-only toggle. -/
theorem filter_spec_witness :
    bOther ∈ filterBookmarks "b" true [bMe, bOther] ↔
      bOther ∈ [bMe, bOther] ∧
      (strIncludes (strToLower bOther.title) (strToLower "b") = true ∨
        strIncludes (strToLower bOther.url) (strToLower "b") = true ∨
        strIncludes ((bOther.description.map strToLower).getD "")
          (strToLower "b") = true) ∧
      (true = true → bOther.is_favorite = some true) :=
  (filter_spec "b" true [bMe, bOther]).2 bOther

/-- Demo URL-validity oracle standing in for `new URL(...)`: accepts
exactly the strings containing `"://"`. -/
def urlOracle : String → Bool := fun s => strIncludes s "://"

/-- C6.  Form validation in `handleSubmit`: the insert request is
issued, with the submitted values, exactly when the trimmed URL is
nonempty, the URL parser accepts the URL, and the trimmed title is
nonempty; when any of the three checks fails, the outcome is an inline
validation error, which by construction carries no insert call and
leaves the store untouched. -/
theorem handleSubmit_spec (V : String → Bool)
    (url title description : String) :
    (handleSubmit V url title description =
        SubmitOutcome.insertIssued url title description ↔
      (url.trim ≠ "" ∧ V url = true ∧ title.trim ≠ "")) ∧
    ((url.trim = "" ∨ V url = false ∨ title.trim = "") →
      ∃ msg, handleSubmit V url title description =
        SubmitOutcome.validationError msg) := by
  by_cases h1 : url.trim = ""
  · refine ⟨by simp [handleSubmit, h1], ?_⟩
    intro _
    exact ⟨"URL is required", by simp [handleSubmit, h1]⟩
  · cases hV : V url
    · refine ⟨by simp [handleSubmit, h1, hV], ?_⟩
      intro _
      exact ⟨"Please enter a valid URL (e.g., https://example.com)",
        by simp [handleSubmit, h1, hV]⟩
    · by_cases h3 : title.trim = ""
      · refine ⟨by simp [handleSubmit, h1, hV, h3], ?_⟩
        intro _
        exact ⟨"Title is required", by simp [handleSubmit, h1, hV, h3]⟩
      · refine ⟨by simp [handleSubmit, h1, hV, h3], ?_⟩
        intro hor
        rcases hor with h | h | h
        · exact absurd h h1
        · exact absurd h (by decide)
        · exact absurd h h3

/-- Witness for C6: the spec's own example — `url = "not-a-url"`,
`title = "My Link"` — fails validation (no insert issued). -/
theorem handleSubmit_spec_witness :
    ∃ msg, handleSubmit urlOracle "not-a-url" "My Link" "" =
      SubmitOutcome.validationError msg :=
  (handleSubmit_spec urlOracle "not-a-url" "My Link" "").2
    (Or.inr (Or.inl (by decide)))

/-- C7.  The update write of `handleUpdateBookmark` with a signed-in
user: the payload carries the trimmed title and url, the trimmed
description replaced by `null` when it trims to the empty string (or
was already `null`), the refreshed timestamp, and is constrained to the
row with the given id owned by the current user. -/
theorem handleUpdateBookmark_payload (uid : String) (now : Nat)
    (id : String) (title url : String) (description : Option String)
    (result : Except String Unit) (s : PageState) :
    (handleUpdateBookmark (some uid) now id title url description
        result s).2 =
      some { title := title.trim, url := url.trim,
             description := match description with
               | none => none
               | some d => if d.trim = "" then none else some d.trim,
             updated_at := now, eqId := id, eqUser := uid } := by
  cases description <;> cases result <;>
    simp [handleUpdateBookmark, jsOrNull]

/-- C8.  Every failing Mutation Gateway operation (create, delete,
update, favorite toggle) sets the operation-specific error banner and
leaves the store's `bookmarks` list exactly as it was. -/
theorem mutationFailure_spec (uid e : String)
    (url title description : String) (now : Nat) (id : String)
    (isFav : Bool) (s : PageState) :
    ((handleAddBookmark (some uid) url title description
        (.error e) s).1.bookmarks = s.bookmarks ∧
      (handleAddBookmark (some uid) url title description
        (.error e) s).1.error = some "Failed to add bookmark") ∧
    ((handleDeleteBookmark (some uid) id (.error e) s).1.bookmarks =
        s.bookmarks ∧
      (handleDeleteBookmark (some uid) id (.error e) s).1.error =
        some "Failed to delete bookmark") ∧
    ((handleUpdateBookmark (some uid) now id title url (some description)
        (.error e) s).1.bookmarks = s.bookmarks ∧
      (handleUpdateBookmark (some uid) now id title url (some description)
        (.error e) s).1.error = some "Failed to update bookmark") ∧
    ((handleToggleFavorite (some uid) now id isFav
        (.error e) s).1.bookmarks = s.bookmarks ∧
      (handleToggleFavorite (some uid) now id isFav
        (.error e) s).1.error =
        some "Failed to update favorite. Make sure your bookmarks table has an is_favorite column.") := by
  refine ⟨⟨rfl, rfl⟩, ⟨rfl, rfl⟩, ⟨rfl, rfl⟩, rfl, rfl⟩

/-- C9.  The OAuth callback `GET` handler: no `code` query parameter
redirects to the `no_code` error state; a present code whose exchange
throws redirects to the `auth_failed` error state; a successful
exchange redirects to the requested `next` target, which defaults to
the bookmarks view. -/
theorem callbackGET_spec (nextP : Option String)
    (exchange : String → Except String Unit) (c e : String) :
    callbackGET none nextP exchange = "/auth?error=no_code" ∧
    (c ≠ "" → exchange c = .error e →
      callbackGET (some c) nextP exchange = "/auth?error=auth_failed") ∧
    (c ≠ "" → exchange c = .ok () →
      callbackGET (some c) nextP exchange = nextTarget nextP) ∧
    nextTarget none = "/bookmarks" := by
  refine ⟨rfl, ?_, ?_, rfl⟩
  · intro hc hx
    simp [callbackGET, hc, hx]
  · intro hc hx
    simp [callbackGET, hc, hx]

/-- Witness for C9: the three redirect outcomes at concrete requests. -/
theorem callbackGET_spec_witness :
    callbackGET none none (fun _ => Except.ok ()) =
      "/auth?error=no_code" ∧
    callbackGET (some "abc") none (fun _ => Except.error "boom") =
      "/auth?error=auth_failed" ∧
    callbackGET (some "abc") (some "/bookmarks?tab=1")
      (fun _ => Except.ok ()) = nextTarget (some "/bookmarks?tab=1") :=
  ⟨(callbackGET_spec none (fun _ => Except.ok ()) "abc" "boom").1,
   (callbackGET_spec none (fun _ => Except.error "boom") "abc" "boom").2.1
     (by decide) rfl,
   (callbackGET_spec (some "/bookmarks?tab=1") (fun _ => Except.ok ())
     "abc" "boom").2.2.1 (by decide) rfl⟩

/-- C10.  The create path's insert payload: `user_id` is the session's
user id, an empty-string description becomes `null`, and `url` and
`title` are passed through exactly as submitted — no trimming, in
contrast with the update write of `handleUpdateBookmark_payload`. -/
theorem handleAddBookmark_payload (uid : String)
    (url title description : String) (result : Except String Unit)
    (s : PageState) :
    (handleAddBookmark (some uid) url title description result s).2 =
      some { url := url, title := title,
             description := if description = "" then none
               else some description,
             user_id := uid } := by
  cases result <;> simp [handleAddBookmark, jsOrNull]

/-- Counterexample to C2 at a concrete input: with the displayed list
holding exactly `bMe` (id `"b1"`), invoking the delete flow for `"b1"`
(here even with a successful backing call) leaves `bMe` in the store
and still displayed — the claimed immediate optimistic removal does not
happen; the flow only plays a fade-out animation. -/
theorem delete_not_optimistic :
    (deleteFlow (some "me") "b1" (Except.ok ())
        { bookmarks := [bMe], error := none }).page.bookmarks = [bMe] ∧
    bMe ∈ filterBookmarks "" false
      (deleteFlow (some "me") "b1" (Except.ok ())
        { bookmarks := [bMe], error := none }).page.bookmarks := by
  refine ⟨rfl, ?_⟩
  decide

/-- C2 (amended).  The client delete flow never changes the `bookmarks`
list (removal is not optimistic: it happens only when the realtime
DELETE echo is applied, last conjunct); the restore branch of the list
component never runs, because `handleDeleteBookmark` catches its own
failures — a failing backing delete only sets the error banner. -/
theorem deleteFlow_spec (user : Option String) (id : String)
    (result : Except String Unit) (s : PageState) (uid e : String)
    (r : Bookmark) (l : List Bookmark) :
    (deleteFlow user id result s).page.bookmarks = s.bookmarks ∧
    (deleteFlow user id result s).restorePlayed = false ∧
    (deleteFlow (some uid) id (.error e) s).page.error =
      some "Failed to delete bookmark" ∧
    (r.user_id = uid → applyRealtimeEvent uid (.del r) l =
      l.filter (fun b => b.id ≠ r.id)) := by
  refine ⟨?_, ?_, rfl, ?_⟩
  · cases user <;> cases result <;>
      simp [deleteFlow, listHandleDelete, handleDeleteBookmark]
  · cases user <;> cases result <;>
      simp [deleteFlow, listHandleDelete, handleDeleteBookmark]
  · intro h
    simp [applyRealtimeEvent, h]

/-- Witness for the amended C2 at concrete inputs: a failing delete
keeps the list, plays no restore, sets the banner; the owned DELETE
echo performs the actual removal. -/
theorem deleteFlow_spec_witness :
    (deleteFlow (some "me") "b1" (Except.error "boom")
        { bookmarks := [bMe], error := none }).page.bookmarks = [bMe] ∧
    (deleteFlow (some "me") "b1" (Except.error "boom")
        { bookmarks := [bMe], error := none }).restorePlayed = false ∧
    (deleteFlow (some "me") "b1" (Except.error "boom")
        { bookmarks := [bMe], error := none }).page.error =
      some "Failed to delete bookmark" ∧
    applyRealtimeEvent "me" (.del bMe) [bMe] =
      [bMe].filter (fun b => b.id ≠ bMe.id) := by
  obtain ⟨h1, h2, h3, h4⟩ :=
    deleteFlow_spec (some "me") "b1" (Except.error "boom")
      { bookmarks := [bMe], error := none } "me" "boom" bMe [bMe]
  exact ⟨h1, h2, h3, h4 (by decide)⟩

end ArtOfBookmarks
